import Mathlib

/-!
Verification of the MRLab instrument-control layer: a shallow embedding of the
status-string decoders (OxfordITC, OxfordIPS), the set-then-verify command
pattern of OxfordIPS, the Manager resource directory, and the Keithley2400
SCPI command builders, together with theorems settling the frozen claims.

Machine floats of the Python source are modelled as exact rationals, and
Python strings as Lean strings.  A Python method that communicates with the
instrument is modelled as a function of the interesting instance attributes
and of a deterministic instrument reply function; its observable effects
(commands sent, attribute updates, errors raised / caught / constructed) are
returned in an explicit result record.
-/

namespace MRLab

/-- Python membership test `needle in haystack` on strings: true when the
first string occurs as a contiguous substring of the second. -/
def leadsWith : List Char → List Char → Bool
  | [], _ => true
  | _ :: _, [] => false
  | a :: as, b :: bs => a == b && leadsWith as bs

/-- Helper for `pyIn`: scan every suffix of the haystack. -/
def pyInList (needle : List Char) : List Char → Bool
  | [] => leadsWith needle []
  | c :: rest => leadsWith needle (c :: rest) || pyInList needle rest

/-- Python `needle in haystack` for strings. -/
def pyIn (needle haystack : String) : Bool :=
  pyInList needle.toList haystack.toList

/-- Python `str.upper()` (ASCII). -/
def pyUpper (s : String) : String := String.mk (s.toList.map Char.toUpper)

/-- Helper for `pyTitle`: the boolean records whether the previous character
was alphabetic. -/
def pyTitleAux : Bool → List Char → List Char
  | _, [] => []
  | prevAlpha, c :: cs =>
    if c.isAlpha then
      (if prevAlpha then c.toLower else c.toUpper) :: pyTitleAux true cs
    else c :: pyTitleAux false cs

/-- Python `str.title()` (ASCII): first letter of every alphabetic run is
upper-cased, the rest lower-cased. -/
def pyTitle (s : String) : String := String.mk (pyTitleAux false s.toList)

/-- Numeric value of a list of decimal digit characters. -/
def digitsVal (cs : List Char) : ℕ :=
  cs.foldl (fun a c => a * 10 + (c.toNat - 48)) 0

/-- Split a character list into its leading run of decimal digits and the
rest. -/
def takeDigits (cs : List Char) : List Char × List Char :=
  (cs.takeWhile Char.isDigit, cs.dropWhile Char.isDigit)

/-- Exponent part of a Python float literal: everything after the `e`.
Returns the exponent as an integer, or `none` when malformed. -/
def parseExponent (cs : List Char) : Option ℤ :=
  let (esgn, cs1) : ℤ × List Char :=
    match cs with
    | '+' :: r => (1, r)
    | '-' :: r => (-1, r)
    | r => (1, r)
  let (eds, rest) := takeDigits cs1
  if eds.isEmpty then none
  else if rest.isEmpty then some (esgn * (digitsVal eds : ℤ))
  else none

/-- The rational value of a decimal mantissa scaled by a power-of-ten
exponent: `D / 10 ^ fracLen × 10 ^ e`, built directly with `Rat.divInt`. -/
def scaledDecimal (D : ℕ) (fracLen : ℕ) (e : ℤ) : ℚ :=
  if 0 ≤ e then Rat.divInt (D * 10 ^ e.toNat : ℕ) (10 ^ fracLen : ℕ)
  else Rat.divInt (D : ℕ) (10 ^ fracLen * 10 ^ (-e).toNat : ℕ)

/-- Mantissa and optional exponent of a Python float literal (sign already
stripped).  Mirrors what `float(string)` accepts for plain decimal input:
digits, an optional decimal point with optional further digits, and an
optional exponent. -/
def parseMantissa (cs : List Char) : Option ℚ :=
  let (ds1, cs1) := takeDigits cs
  let (ds2, cs2) : Option (List Char) × List Char :=
    match cs1 with
    | '.' :: rest =>
      let (d, r) := takeDigits rest
      (some d, r)
    | rest => (none, rest)
  let fracDigits := match ds2 with | none => [] | some d => d
  if ds1.isEmpty && fracDigits.isEmpty then none
  else
    let D := digitsVal ds1 * 10 ^ fracDigits.length + digitsVal fracDigits
    match cs2 with
    | [] => some (scaledDecimal D fracDigits.length 0)
    | 'e' :: rest => (parseExponent rest).map (scaledDecimal D fracDigits.length)
    | 'E' :: rest => (parseExponent rest).map (scaledDecimal D fracDigits.length)
    | _ => none

/-- Python `float(string)` on well-formed decimal input, as an exact
rational; `none` models an uncaught `ValueError`. -/
def pyFloat? (s : String) : Option ℚ :=
  match s.toList with
  | '+' :: rest => parseMantissa rest
  | '-' :: rest => (parseMantissa rest).map Neg.neg
  | rest => parseMantissa rest

/-- Round the fraction `N / d` (of naturals, `d` nonzero) to the nearest
natural number, ties to even, as Python float formatting does. -/
def roundHalfEvenDiv (N d : ℕ) : ℕ :=
  let n0 := N / d
  let r := N % d
  if 2 * r < d then n0
  else if d < 2 * r then n0 + 1
  else if n0 % 2 = 0 then n0 else n0 + 1

/-- Zero-pad a numeral string on the left to the given width. -/
def padZeros (width : ℕ) (s : String) : String :=
  String.mk (List.replicate (width - s.length) '0') ++ s

/-- Python format `{0:+.Nf}` applied to a value: sign always included, `prec` digits after
the decimal point, rounding to nearest with ties to even (the scaled
magnitude `|q| * 10 ^ prec` is taken directly on the numerator and
denominator of `q`). -/
def formatSignedFixed (prec : ℕ) (q : ℚ) : String :=
  let n := roundHalfEvenDiv (q.num.natAbs * 10 ^ prec) q.den
  let ip := n / 10 ^ prec
  let fp := n % 10 ^ prec
  (if q < 0 then "-" else "+") ++ toString ip ++ "." ++ padZeros prec (toString fp)

/-- Minimal decimal rendering of a nonnegative rational whose denominator
divides a power of ten; used to model Python `str` on the numeric
configuration values of this repository (all of which are such decimals). -/
def pyStrQnn (q : ℚ) : String :=
  if q.den = 1 then toString q.num.toNat
  else
    match (List.range 40).find? (fun k => q.den ∣ 10 ^ k) with
    | none => toString q.num.toNat ++ "/" ++ toString q.den
    | some k =>
      let n := q.num.toNat * (10 ^ k / q.den)
      toString (n / 10 ^ k) ++ "." ++ padZeros k (toString (n % 10 ^ k))

/-- Python `str(x)` for the numeric parameters appearing in the claims. -/
def pyStrQ (q : ℚ) : String :=
  if q < 0 then "-" ++ pyStrQnn (-q) else pyStrQnn q

/-- Python `abs` on a (rational-modelled) float. -/
def pyAbs (q : ℚ) : ℚ := if q < 0 then -q else q

/-- The Python decimal literal `m × 10 ^ (-k)` (for example `pyDec 9846 2`
is the literal `98.46`), built with `Rat.divInt`. -/
def pyDec (m : ℤ) (k : ℕ) : ℚ := Rat.divInt m (10 ^ k : ℕ)

/-! ### Status decoding (Oxford instruments)

The Oxford message tables are Python dicts keyed by tuples whose components
are strings or ints, so a key component is modelled as a sum of the two. -/

/-- One component of a Python dict key: a string or an int. -/
inductive PyScalar
  | s (v : String)
  | i (v : ℤ)
deriving DecidableEq, Repr

/-- A Python tuple key of a message table. -/
abbrev PyKey := List PyScalar

/-- Python dict lookup `d[k]` on an association list with unique keys
(`none` models an uncaught `KeyError`). -/
def lookupKey (k : PyKey) : List (PyKey × String) → Option String
  | [] => none
  | (k2, v) :: rest => if k = k2 then some v else lookupKey k rest

/-- The ways a status-decoder run can die: a tuple key absent from the
message table (Python `KeyError`), or indexing past the end of a field
substring (Python `IndexError`). -/
inductive DecodeErr
  | keyError (k : PyKey)
  | indexError
deriving DecidableEq, Repr

/-- The decoder loop shared by the Oxford wrappers: walk the field
substrings in order, derive each lookup key with the per-class `fieldKey`
rule, append the phrase found in the message table, and stop at the first
uncaught `KeyError` / `IndexError`, returning the partial concatenation
built so far together with the error. -/
def decodeRun (fieldKey : String → Except DecodeErr PyKey)
    (msgs : List (PyKey × String)) : List String → String → String × Option DecodeErr
  | [], acc => (acc, none)
  | part :: rest, acc =>
    match fieldKey part with
    | .error e => (acc, some e)
    | .ok k =>
      match lookupKey k msgs with
      | none => (acc, some (.keyError k))
      | some m => decodeRun fieldKey msgs rest (acc ++ m)

/-- The message-table keys a decoder run would try to look up, in order
(keys of fields whose characters cannot even be extracted are skipped;
such fields die with an `IndexError` instead). -/
def runKeys (fieldKey : String → Except DecodeErr PyKey) (parts : List String) : List PyKey :=
  parts.filterMap (fun p => (fieldKey p).toOption)

namespace OxfordITC

/-- Python `X_messages` of `OxfordITC._messages_dictionary_`. -/
def X_messages : List (String × String) :=
  [("0", "Temperature controller NORMAL operative mode.\n")]

/-- Python `A_messages` of `OxfordITC._messages_dictionary_`. -/
def A_messages : List (String × String) :=
  [("0", "Heater in MANUAL mode. Gas flow in MANUAL mode.\n"),
   ("1", "Heater in AUTO mode. Gas flow in MANUAL mode.\n"),
   ("2", "Heater in MANUAL mode. Gas flow in AUTO mode.\n"),
   ("3", "Heater in AUTO mode. Gas flow in AUTO mode.\n")]

/-- Python `C_messages` of `OxfordITC._messages_dictionary_`. -/
def C_messages : List (String × String) :=
  [("0", "Temperature controller in LOCAL and LOCKED state.\n"),
   ("1", "Temperature controller in REMOTE and LOCKED state.\n"),
   ("2", "Temperature controller in LOCAL and UNLOCKED state.\n"),
   ("3", "Temperature controller in REMOTE and UNLOCKED state.\n")]

/-- Python `H_messages` of `OxfordITC._messages_dictionary_`. -/
def H_messages : List (String × String) :=
  [("1", "Temperature is controlled by CHANNEL 1 sensor.\n"),
   ("2", "Temperature is controlled by CHANNEL 2 sensor.\n"),
   ("3", "Temperature is controlled by CHANNEL 3 sensor.\n")]

/-- Python `L_messages` of `OxfordITC._messages_dictionary_`. -/
def L_messages : List (String × String) :=
  [("0", "Auto (learned) PIDs are DISABLED."),
   ("1", "Auto (learned) PIDs are ENABLED.")]

/-- The sweep-step phrase stored for step number `nn` (1 to 31) by
`OxfordITC._messages_dictionary_`: Python
`Sweeping to step number {0:G} set temperature.` formatted with
`(nn + 1) // 2` for odd `nn`, and `Holding the step number {0:G} set
temperature.` formatted with
`nn // 2` for even `nn`. -/
def sweep_message (nn : ℕ) : String :=
  if nn % 2 = 1 then
    "Sweeping to step number " ++ toString ((nn + 1) / 2) ++ " set temperature.\n"
  else
    "Holding the step number " ++ toString (nn / 2) ++ " set temperature.\n"

/-- Python `OxfordITC._messages_dictionary_`: the association list the Python
loops build, in insertion order.  Note that the sweep entries other than
the key pair `(S, 00)` are keyed by the Python int `nn`, not by its two-digit
string form, exactly as in the source (`messages[key, nn]` with `nn`
ranging over `range(1, 32)`). -/
def messages_dictionary : List (PyKey × String) :=
  (X_messages.map fun p => ([PyScalar.s "X", PyScalar.s p.1], p.2))
  ++ (A_messages.map fun p => ([PyScalar.s "A", PyScalar.s p.1], p.2))
  ++ (C_messages.map fun p => ([PyScalar.s "C", PyScalar.s p.1], p.2))
  ++ ([([PyScalar.s "S", PyScalar.s "00"], "Sweep mode is not active.\n")]
      ++ (List.range 31).map (fun j =>
            ([PyScalar.s "S", PyScalar.i (j + 1 : ℕ)], sweep_message (j + 1))))
  ++ (H_messages.map fun p => ([PyScalar.s "H", PyScalar.s p.1], p.2))
  ++ (L_messages.map fun p => ([PyScalar.s "L", PyScalar.s p.1], p.2))

/-- The `status_split` tuple of `OxfordITC._status_decoder_`:
`(status[:2], status[2:4], status[4:6], status[6:9], status[9:11],
status[11:])`. -/
def status_split (status : String) : List String :=
  [status.take 2, (status.drop 2).take 2, (status.drop 4).take 2,
   (status.drop 6).take 3, (status.drop 9).take 2, status.drop 11]

/-- The loop body of `OxfordITC._status_decoder_`, reduced to the dict key
it looks up: a two-character field is `(string[0], string[1])`; otherwise,
when `string[0]` is the letter S the key is the pair of `S` and
`string[1:]` (the slice is a
Python *string*, which is why nonzero sweep steps miss the int-keyed table
entries); otherwise the key is `(string[0], string[1], string[2])`.
Character accesses past the end are Python `IndexError`s. -/
def fieldKey (part : String) : Except DecodeErr PyKey :=
  match part.toList with
  | [c0, c1] => .ok [PyScalar.s (String.singleton c0), PyScalar.s (String.singleton c1)]
  | [] => .error .indexError
  | c0 :: rest =>
    if c0 = 'S' then
      .ok [PyScalar.s (String.singleton c0), PyScalar.s (String.mk rest)]
    else
      match rest with
      | c1 :: c2 :: _ =>
        .ok [PyScalar.s (String.singleton c0), PyScalar.s (String.singleton c1),
             PyScalar.s (String.singleton c2)]
      | _ => .error .indexError

/-- Python `OxfordITC._status_decoder_`: returns the (possibly partial) value of
`last_decodified_status` together with the uncaught exception, if any,
that ended the run. -/
def status_decoder (status : String) : String × Option DecodeErr :=
  decodeRun fieldKey messages_dictionary (status_split status) ""

end OxfordITC

namespace OxfordIPS

/-- Python `X_m_messages` of `OxfordIPS._messages_dictionary_`. -/
def X_m_messages : List (String × String) :=
  [("0", "Magnet NORMAL."), ("1", "Magnet QUENCHED."), ("2", "Power supply OVER HEATED."),
   ("4", "Magnet is WARMING UP."), ("8", "Magnet is at FAULT.")]

/-- Python `X_n_messages` of `OxfordIPS._messages_dictionary_`. -/
def X_n_messages : List (String × String) :=
  [("0", "Power supply NORMAL.\n"), ("1", "Power supply ON POSITIVE VOLTAGE LIMIT.\n"),
   ("2", "Power supply ON NEGATIVE VOLTAGE LIMIT.\n"),
   ("4", "Power supply OUTSIDE NEGATIVE CURRENT LIMIT.\n"),
   ("8", "Power supply OUTSIDE POSITIVE CURRENT LIMIT.\n")]

/-- Python `A_messages` of `OxfordIPS._messages_dictionary_`. -/
def A_messages : List (String × String) :=
  [("0", "Power supply output is in HOLD state.\n"),
   ("1", "Power supply output is sweeping TO SET POINT.\n"),
   ("2", "Power supply output is sweeping TO ZERO.\n"),
   ("4", "Power supply output is CLAMPED.\n")]

/-- Python `C_messages` of `OxfordIPS._messages_dictionary_`. -/
def C_messages : List (String × String) :=
  [("0", "Power supply in LOCAL AND LOCKED.\n"), ("1", "Power supply in REMOTE AND LOCKED.\n"),
   ("2", "Power supply in LOCAL AND UNLOCKED.\n"), ("3", "Power supply in REMOTE AND UNLOCKED.\n"),
   ("4", "Power supply in AUTO-RUN-DOWN.\n"), ("5", "Power supply in AUTO-RUN-DOWN.\n"),
   ("6", "Power supply in AUTO-RUN-DOWN.\n"), ("7", "Power supply in AUTO-RUN-DOWN.\n")]

/-- Python `H_messages` of `OxfordIPS._messages_dictionary_`. -/
def H_messages : List (String × String) :=
  [("0", "Switch heater is OFF with MAGNET AT ZERO field.\n"), ("1", "Switch heater is ON.\n"),
   ("2", "Switch heater is OFF with MAGNET AT FIELD.\n"), ("5", "Switch heater is at FAULT.\n"),
   ("8", "There is NO SWITCH HEATER fitted.\n")]

/-- Python `M_m_messages` of `OxfordIPS._messages_dictionary_`. -/
def M_m_messages : List (String × String) :=
  [("0", "Power supply in AMPS FAST sweep mode."), ("1", "Power supply in FIELD FAST sweep mode."),
   ("4", "Power supply in AMPS SLOW sweep mode."), ("5", "Power supply in FIELD SLOW sweep mode.")]

/-- Python `M_n_messages` of `OxfordIPS._messages_dictionary_`. -/
def M_n_messages : List (String × String) :=
  [("0", "Power supply is AT REST.\n"), ("1", "Power supply is SWEEPING (current in magnet).\n"),
   ("2", "Power supply is SWEEP LIMITING (current in switch)).\n"),
   ("3", "Power supply is SWEEPING (current in magnet) buth with a SWEEP LIMITING in rate.\n")]

/-- Python `P_m_messages` of `OxfordIPS._messages_dictionary_`. -/
def P_m_messages : List (String × String) :=
  [("0", "Polarities: POS, POS, POS."), ("1", "Polarities: POS, POS, NEG."),
   ("2", "Polarities: POS, NEG, POS."), ("3", "Polarities: POS, NEG, NEG."),
   ("4", "Polarities: NEG, POS, POS."), ("5", "Polarities: NEG, POS, NEG."),
   ("6", "Polarities: NEG, NEG, POS."), ("7", "Polarities: NEG, NEG, NEG.")]

/-- Python `P_n_messages` of `OxfordIPS._messages_dictionary_`. -/
def P_n_messages : List (String × String) :=
  [("1", "Negative contactor closed."), ("2", "Positive contactor closed."),
   ("3", "Both contactors open."), ("4", "Both contactors closed."), ("7", "Output clamped.")]

/-- Python `OxfordIPS._messages_dictionary_`: the association list built by the
Python loops, in insertion order; the `X`, `M` and `P` blocks are cartesian
products of their two fragment tables joined by a space. -/
def messages_dictionary : List (PyKey × String) :=
  (X_m_messages.flatMap fun pm => X_n_messages.map fun pn =>
     ([PyScalar.s "X", PyScalar.s pm.1, PyScalar.s pn.1], pm.2 ++ " " ++ pn.2))
  ++ (A_messages.map fun p => ([PyScalar.s "A", PyScalar.s p.1], p.2))
  ++ (C_messages.map fun p => ([PyScalar.s "C", PyScalar.s p.1], p.2))
  ++ (H_messages.map fun p => ([PyScalar.s "H", PyScalar.s p.1], p.2))
  ++ (M_m_messages.flatMap fun pm => M_n_messages.map fun pn =>
     ([PyScalar.s "M", PyScalar.s pm.1, PyScalar.s pn.1], pm.2 ++ " " ++ pn.2))
  ++ (P_m_messages.flatMap fun pm => P_n_messages.map fun pn =>
     ([PyScalar.s "P", PyScalar.s pm.1, PyScalar.s pn.1], pm.2 ++ " " ++ pn.2))

/-- The `status_split` tuple of `OxfordIPS._status_decoder_`:
`(status[:3], status[3:5], status[5:7], status[7:9], status[9:12],
status[12:])`. -/
def status_split (status : String) : List String :=
  [status.take 3, (status.drop 3).take 2, (status.drop 5).take 2,
   (status.drop 7).take 2, (status.drop 9).take 3, status.drop 12]

/-- The loop body of `OxfordIPS._status_decoder_`, reduced to the dict key
it looks up: a two-character field gives `(status[0], status[1:])`, any
other field gives `(status[0], status[1], status[2])`, with out-of-range
character accesses dying with a Python `IndexError`. -/
def fieldKey (part : String) : Except DecodeErr PyKey :=
  match part.toList with
  | [c0, c1] => .ok [PyScalar.s (String.singleton c0), PyScalar.s (String.singleton c1)]
  | [] => .error .indexError
  | c0 :: rest =>
    match rest with
    | c1 :: c2 :: _ =>
      .ok [PyScalar.s (String.singleton c0), PyScalar.s (String.singleton c1),
           PyScalar.s (String.singleton c2)]
    | _ => .error .indexError

/-- Python `OxfordIPS._status_decoder_`: the (possibly partial)
`last_decodified_status` together with the uncaught exception, if any. -/
def status_decoder (status : String) : String × Option DecodeErr :=
  decodeRun fieldKey messages_dictionary (status_split status) ""

end OxfordIPS

/-! ### Errors and the error handler

The repository imports an `Errors` module that is not under `src/`; only
its class names and the `error_handler` call sites are visible. -/

/-- Modelled from the spec: the `Errors` module (exception classes and
their `error_handler` method) is code of this repository that is not under
`src/`.  Per the spec, `error_handler()` prints the error; re-raising is
done by the explicit `raise` statements that some call sites put after the
call (so a call site without a trailing `raise` swallows the exception),
and several call sites reference the method without invoking it, which is
a silent no-op.  The classes carry the constructor arguments shown at the
raise sites. -/
inductive PyErr
  | PSNotResponding
  | PSWrongOutputCurrent (v : ℚ)
  | PSWrongOutputField (v : ℚ)
  | PSWrongCurrentSweepRate (v : ℚ)
  | IncorrectInstrumentError
  | InstrumentNotAvailableError
  | VoidManagerError
  | ValueErrorFloat (s : String)
  | KeyError (k : String)
  | InvalidTypeDictionaryError
deriving DecidableEq, Repr

/-- Modelled from the spec: `error.error_handler()` logs the error and
returns; in this embedding a handled error is recorded on the method
result field `caught`. -/
def error_handler (caught : List PyErr) (e : PyErr) : List PyErr := caught ++ [e]

/-! ### OxfordIPS profile methods (set-then-verify pattern) -/

/-- A deterministic simulated instrument: the reply returned for each
command string sent with `query`. -/
abbrev Instr := String → String

/-- The OxfordIPS instance attributes the modelled methods read or write.
Cached readings start as Python `None`, hence the `Option`. -/
structure IPSState where
  identity : String
  buffer_radix : String
  extended_resolution : Bool
  current_set_point : Option ℚ := none
  field_set_point : Option ℚ := none
  current_sweep_rate : Option ℚ := none
  safe_current_negative_limit : Option ℚ := none
  safe_current_positive_limit : Option ℚ := none
deriving DecidableEq, Repr

/-- Observable outcome of one OxfordIPS method call: the updated instance
attributes, the commands sent (in order), the errors raised inside the
method body of `try` and caught by an `except` clause (then merely logged or
silently dropped), the error objects constructed without being raised, and
the exception, if any, escaping the method. -/
structure IPSRes where
  state : IPSState
  sent : List String
  caught : List PyErr
  constructed : List PyErr
  thrown : Option PyErr
deriving DecidableEq, Repr

/-- The decoded numeric value of an instrument reply as the Oxford readers
see it: the echo character is stripped (`[1:]`), a reply containing `?` is
a rejection (no value), otherwise the remainder is parsed with `float`. -/
def parsedReply (reply : String) : Option ℚ :=
  if pyIn "?" (reply.drop 1) then none else pyFloat? (reply.drop 1)

namespace OxfordIPS

/-- The shared shape of the `get_X_reading` monitor commands of
`OxfordIPS` (for example `get_current_set_point_reading`): guard on
the `IPS` identity membership test, query `buffer_radix + cmd`, strip the echo
character, raise (and internally swallow) `PSNotResponding` on a `?`
reply, else store `float(string)` through `upd`; an unparsable reply is an
uncaught `ValueError`. -/
def get_reading (cmd : String) (upd : IPSState → ℚ → IPSState)
    (st : IPSState) (instr : Instr) : IPSRes :=
  if pyIn "IPS" st.identity then
    let sent := [st.buffer_radix ++ cmd]
    let body := (instr (st.buffer_radix ++ cmd)).drop 1
    if pyIn "?" body then
      { state := st, sent := sent, caught := error_handler [] .PSNotResponding,
        constructed := [], thrown := none }
    else
      match pyFloat? body with
      | some q => { state := upd st q, sent := sent, caught := [], constructed := [],
                    thrown := none }
      | none => { state := st, sent := sent, caught := [], constructed := [],
                  thrown := some (.ValueErrorFloat body) }
  else
    { state := st, sent := [], caught := error_handler [] .IncorrectInstrumentError,
      constructed := [], thrown := none }

/-- Python `OxfordIPS.get_current_set_point_reading`: query `R5`, store the value
in `current_set_point`. -/
def get_current_set_point_reading : IPSState → Instr → IPSRes :=
  get_reading "R5" (fun st q => { st with current_set_point := some q })

/-- Python `OxfordIPS.get_current_sweep_rate_reading`: query `R6`, store the
value in `current_sweep_rate`. -/
def get_current_sweep_rate_reading : IPSState → Instr → IPSRes :=
  get_reading "R6" (fun st q => { st with current_sweep_rate := some q })

/-- Python `OxfordIPS.get_field_set_point_reading`: query `R8`, store the value
in `field_set_point`. -/
def get_field_set_point_reading : IPSState → Instr → IPSRes :=
  get_reading "R8" (fun st q => { st with field_set_point := some q })

/-- Python `OxfordIPS.get_safe_current_negative_limit_reading`: query `R21`,
store the value in `safe_current_negative_limit`. -/
def get_safe_current_negative_limit_reading : IPSState → Instr → IPSRes :=
  get_reading "R21" (fun st q => { st with safe_current_negative_limit := some q })

/-- Python `OxfordIPS.get_safe_current_positive_limit_reading`: query `R21` (the
same command string as the negative-limit reader), store the value in
`safe_current_positive_limit`. -/
def get_safe_current_positive_limit_reading : IPSState → Instr → IPSRes :=
  get_reading "R21" (fun st q => { st with safe_current_positive_limit := some q })

/-- Python `OxfordIPS.set_target_current`: validate `abs(current) <= 98.46`, send
`I{0:+.4f}` (extended resolution) or `I{0:+.3f}`, re-read the current set
point, and raise `PSNotResponding` when the cached re-read value differs
from the requested one; the `except` clause catches all three errors and
references `error_handler` without invoking it (swallowing them). -/
def set_target_current (st : IPSState) (instr : Instr) (current : ℚ) : IPSRes :=
  if pyIn "IPS" st.identity then
    if pyAbs current ≤ pyDec 9846 2 then
      let cmd := st.buffer_radix ++ "I" ++
        (if st.extended_resolution then formatSignedFixed 4 current
         else formatSignedFixed 3 current)
      let r1 := get_current_set_point_reading st instr
      match r1.thrown with
      | some e => { state := r1.state, sent := cmd :: r1.sent, caught := r1.caught,
                    constructed := [], thrown := some e }
      | none =>
        if r1.state.current_set_point = some current then
          { state := r1.state, sent := cmd :: r1.sent, caught := r1.caught,
            constructed := [], thrown := none }
        else
          { state := r1.state, sent := cmd :: r1.sent,
            caught := r1.caught ++ [.PSNotResponding], constructed := [], thrown := none }
    else
      { state := st, sent := [], caught := [.PSWrongOutputCurrent current],
        constructed := [], thrown := none }
  else
    { state := st, sent := [], caught := [.IncorrectInstrumentError],
      constructed := [], thrown := none }

/-- Python `OxfordIPS.set_target_field`: validate `abs(field) <= 7`, send
`J{0:+.5f}` (extended resolution) or `J{0:+.4f}`, re-read the field set
point, and raise `PSNotResponding` on a mismatch; here the `except`
clause catches only `IncorrectInstrumentError`, so `PSWrongOutputField`
and `PSNotResponding` escape the method uncaught. -/
def set_target_field (st : IPSState) (instr : Instr) (field : ℚ) : IPSRes :=
  if pyIn "IPS" st.identity then
    if pyAbs field ≤ pyDec 7 0 then
      let cmd := st.buffer_radix ++ "J" ++
        (if st.extended_resolution then formatSignedFixed 5 field
         else formatSignedFixed 4 field)
      let r1 := get_field_set_point_reading st instr
      match r1.thrown with
      | some e => { state := r1.state, sent := cmd :: r1.sent, caught := r1.caught,
                    constructed := [], thrown := some e }
      | none =>
        if r1.state.field_set_point = some field then
          { state := r1.state, sent := cmd :: r1.sent, caught := r1.caught,
            constructed := [], thrown := none }
        else
          { state := r1.state, sent := cmd :: r1.sent, caught := r1.caught,
            constructed := [], thrown := some .PSNotResponding }
    else
      { state := st, sent := [], caught := [], constructed := [],
        thrown := some (.PSWrongOutputField field) }
  else
    { state := st, sent := [], caught := [.IncorrectInstrumentError],
      constructed := [], thrown := none }

/-- Python `OxfordIPS.set_current_sweep_rate`: validate `abs(rate) <= 16.88`,
send `S{0:+.4f}` or `S{0:+.3f}`, re-read the sweep rate.  On a re-read
mismatch the source merely *names* `Errors.PSNotResponding` without
constructing or raising it (a no-op), and in the out-of-range branch it
*constructs* `Errors.PSWrongCurrentSweepRate(rate)` without raising it, so
both paths return normally. -/
def set_current_sweep_rate (st : IPSState) (instr : Instr) (rate : ℚ) : IPSRes :=
  if pyIn "IPS" st.identity then
    if pyAbs rate ≤ pyDec 1688 2 then
      let cmd := st.buffer_radix ++ "S" ++
        (if st.extended_resolution then formatSignedFixed 4 rate
         else formatSignedFixed 3 rate)
      let r1 := get_current_sweep_rate_reading st instr
      match r1.thrown with
      | some e => { state := r1.state, sent := cmd :: r1.sent, caught := r1.caught,
                    constructed := [], thrown := some e }
      | none =>
        { state := r1.state, sent := cmd :: r1.sent, caught := r1.caught,
          constructed := [], thrown := none }
    else
      { state := st, sent := [], caught := [],
        constructed := [.PSWrongCurrentSweepRate rate], thrown := none }
  else
    { state := st, sent := [], caught := [.IncorrectInstrumentError],
      constructed := [], thrown := none }

end OxfordIPS

/-- The errors a method run raised inside its `try` block, whether an
`except` clause then swallowed them (`caught`) or they escaped
(`thrown`). -/
def IPSRes.raisedErrors (r : IPSRes) : List PyErr := r.caught ++ r.thrown.toList

/-! ### Manager (resource directory) -/

namespace Manager

/-- The `Manager` attributes the modelled methods touch: the current
resource enumeration (`self.resources`). -/
structure State where
  resources : List String
deriving DecidableEq, Repr

/-- Observable outcome of a `Manager` method call: updated state, the
number of `list_resources` calls made (refreshes), the opened handle
(`none` models returning Python `None`), errors caught and logged by an
`except` clause, and the exception escaping to the caller, if any. -/
structure Res where
  state : State
  list_resources_calls : ℕ
  handle : Option String
  caught : List PyErr
  thrown : Option PyErr
deriving DecidableEq, Repr

/-- Python `Manager._refresh_resources_`: replace `self.resources` with a fresh
`list_resources()` enumeration (`lsr`); if the enumeration did not change,
raise `VoidManagerError` (empty) or `InstrumentNotAvailableError`
(non-empty), log it via `error_handler()`, and re-raise it with the
explicit `raise` statement. -/
def refresh_resources (st : State) (lsr : List String) : Res :=
  if lsr = st.resources then
    if lsr = [] then
      { state := ⟨lsr⟩, list_resources_calls := 1, handle := none,
        caught := error_handler [] .VoidManagerError, thrown := some .VoidManagerError }
    else
      { state := ⟨lsr⟩, list_resources_calls := 1, handle := none,
        caught := error_handler [] .InstrumentNotAvailableError,
        thrown := some .InstrumentNotAvailableError }
  else
    { state := ⟨lsr⟩, list_resources_calls := 1, handle := none, caught := [], thrown := none }

/-- Python `Manager.open_instrument`: open the address if it is already
enumerated; otherwise refresh the enumeration once and retry.  The
`except` clause catches `InstrumentNotAvailableError` (whether raised here
or re-raised by the refresh), calls `error_handler()` and does *not*
re-raise, so the method then returns Python `None`; a `VoidManagerError`
re-raised by the refresh is not caught and escapes to the caller.  `lsr`
is the enumeration a refresh would observe. -/
def open_instrument (st : State) (lsr : List String) (adress : String) : Res :=
  if adress ∈ st.resources then
    { state := st, list_resources_calls := 0, handle := some adress, caught := [],
      thrown := none }
  else
    let r := refresh_resources st lsr
    match r.thrown with
    | some PyErr.InstrumentNotAvailableError =>
      { state := r.state, list_resources_calls := r.list_resources_calls, handle := none,
        caught := error_handler r.caught .InstrumentNotAvailableError, thrown := none }
    | some e =>
      { state := r.state, list_resources_calls := r.list_resources_calls, handle := none,
        caught := r.caught, thrown := some e }
    | none =>
      if adress ∈ r.state.resources then
        { state := r.state, list_resources_calls := r.list_resources_calls,
          handle := some adress, caught := r.caught, thrown := none }
      else
        { state := r.state, list_resources_calls := r.list_resources_calls, handle := none,
          caught := error_handler r.caught .InstrumentNotAvailableError, thrown := none }

end Manager

/-! ### Keithley2400 SCPI command builders -/

namespace Instruments

/-- Python `Instruments.type_dictionary`: for equal-length tuples of option names
and SCPI fragments, the pair list registering, for each option, the
spelling as given, its `title()` form and its `upper()` form; unequal
lengths raise `InvalidTypeDictionaryError` (logged and re-raised). -/
def type_dictionary (keys buffers : List String) : Except PyErr (List (String × String)) :=
  if keys.length = buffers.length then
    .ok ((keys.zip buffers).flatMap fun kb =>
      [(kb.1, kb.2), (pyTitle kb.1, kb.2), (pyUpper kb.1, kb.2)])
  else
    .error .InvalidTypeDictionaryError

/-- Python dict lookup on the pair list produced by `type_dictionary`
(later duplicate keys would override earlier ones, hence the reverse);
`none` models an uncaught `KeyError`. -/
def dict_lookup (pairs : List (String × String)) (k : String) : Option String :=
  pairs.reverse.lookup k

/-- Lookup through a possibly-failed `type_dictionary` construction. -/
def dict_lookupE (e : Except PyErr (List (String × String))) (k : String) : Option String :=
  match e with
  | .ok d => dict_lookup d k
  | .error _ => none

end Instruments

namespace Keithley2400

/-- Python `Keithley2400._source_general_configuration_`: the auto-clear fragment
(with the mnemonic table from keys `always`, `on trigger` to fragments
`ALW`, `TCO`)
followed by the settling fragment.  A failed mnemonic lookup is an
uncaught lookup error that aborts buffer construction. -/
def source_general_configuration (auto_clear : Bool) (autoclear_mode : String)
    (auto_settle : Bool) (settling_delay : ℚ) : Except PyErr String :=
  let buf0 : Except PyErr String :=
    if auto_clear then
      match Instruments.type_dictionary ["always", "on trigger"] ["ALW", "TCO"] with
      | .error e => .error e
      | .ok autoclear_types =>
        match Instruments.dict_lookup autoclear_types autoclear_mode with
        | none => .error (.KeyError autoclear_mode)
        | some v => .ok (":SOUR:CLE:AUTO ON;:SOUR:CLE:AUTO:mode " ++ v ++ ";")
    else
      .ok ":SOUR:CLE:AUTO OFF;"
  match buf0 with
  | .error e => .error e
  | .ok b =>
    if auto_settle then
      .ok (b ++ ":SOUR:DEL:AUTO ON;")
    else
      .ok (b ++ ":SOUR:DEL:AUTO OFF;:SOUR:DEL " ++ pyStrQ settling_delay ++ ";")

/-- The `spacing_types` mnemonic table of
`Keithley2400._sweep_configuration_`. -/
def spacing_types : Except PyErr (List (String × String)) :=
  Instruments.type_dictionary ["linear", "logarithmic"] ["LIN", "LOG"]

/-- The `directions` mnemonic table of
`Keithley2400._sweep_configuration_`. -/
def directions : Except PyErr (List (String × String)) :=
  Instruments.type_dictionary ["up", "down"] ["UP", "DOWN"]

/-- The `range_modes` mnemonic table of
`Keithley2400._sweep_configuration_`. -/
def range_modes : Except PyErr (List (String × String)) :=
  Instruments.type_dictionary ["best", "auto", "fixed"] ["BEST", "AUTO", "FIX"]

/-- The `abort_modes` mnemonic table of
`Keithley2400._sweep_configuration_`. -/
def abort_modes : Except PyErr (List (String × String)) :=
  Instruments.type_dictionary ["never", "early", "late"] ["NEV", "EARL", "LATE"]

/-- Python `Keithley2400._sweep_configuration_`: build the four mnemonic tables
(spacing, direction, range mode, abort-on-compliance) and assemble the
`:SOUR:SWE:...` buffer; an unrecognized spelling is an uncaught lookup
error. -/
def sweep_configuration (spacing : String) (points : ℕ) (direction : String)
    (sweep_range_mode : String) (abort_on_compliance : String) : Except PyErr String :=
  match spacing_types, directions, range_modes, abort_modes with
  | .ok d1, .ok d2, .ok d3, .ok d4 =>
    (match Instruments.dict_lookup d1 spacing,
           Instruments.dict_lookup d2 direction,
           Instruments.dict_lookup d3 sweep_range_mode,
           Instruments.dict_lookup d4 abort_on_compliance with
     | some v1, some v2, some v3, some v4 =>
       .ok (":SOUR:SWE:SPAC " ++ v1 ++ ";:SOUR:SWE:POIN " ++ toString points ++
            ";:SOUR:SWE:DIR " ++ v2 ++ ";:SOUR:SWE:RANG " ++ v3 ++
            ";:SOUR:SWE:CAB " ++ v4 ++ ";")
     | none, _, _, _ => .error (.KeyError spacing)
     | _, none, _, _ => .error (.KeyError direction)
     | _, _, none, _ => .error (.KeyError sweep_range_mode)
     | _, _, _, none => .error (.KeyError abort_on_compliance))
  | .error e, _, _, _ => .error e
  | _, .error e, _, _ => .error e
  | _, _, .error e, _ => .error e
  | _, _, _, .error e => .error e

/-- The command buffer assembled by
`Keithley2400.current_source_fixed_configuration` before it is written to
the instrument: general source configuration, `CURR` fixed-mode header,
ranging, source level (immediate or triggered, with optional scaling), and
the voltage compliance fragment. -/
def current_source_fixed_buffer (auto_clear : Bool) (autoclear_mode : String)
    (auto_settle : Bool) (settling_delay : ℚ) (auto_range : Bool)
    (manual_range source_level : ℚ) (set_level_mode : String)
    (triggered_scaling : Bool) (scaling_factor compliance_value : ℚ) :
    Except PyErr String :=
  match source_general_configuration auto_clear autoclear_mode auto_settle settling_delay with
  | .error e => .error e
  | .ok buf0 =>
    let buf1 := buf0 ++ ":SOUR:FUNC CURR;:SOUR:CURR:MODE FIX;"
    let buf2 :=
      if auto_range then buf1 ++ ":SOUR:CURR:RANG:AUTO ON;"
      else buf1 ++ ":SOUR:CURR:RANG:AUTO OFF;:SOUR:CURR:RANG " ++ pyStrQ manual_range
    let buf3 :=
      if set_level_mode = "immediate" ∨ set_level_mode = pyTitle "immediate"
          ∨ set_level_mode = pyUpper "immediate" then
        buf2 ++ ":SOUR:CURR " ++ pyStrQ source_level ++ ";"
      else if set_level_mode = "triggered" ∨ set_level_mode = pyTitle "triggered"
          ∨ set_level_mode = pyUpper "triggered" then
        if triggered_scaling then
          buf2 ++ ":SOUR:CURR:TRIG " ++ pyStrQ source_level ++
            ";:SOUR:CURR:TRIG:SFAC ON;:SOUR:CURR:TRIG:SFAC " ++ pyStrQ scaling_factor
        else
          buf2 ++ ":SOUR:CURR:TRIG " ++ pyStrQ source_level ++ ";:SOUR:CURR:TRIG:SFAC OFF;"
      else buf2
    .ok (buf3 ++ ":SENS:VOLT:PROT " ++ pyStrQ compliance_value ++ ";")

/-- The command buffer assembled by
`Keithley2400.current_source_sweep_configuration` before it is written. -/
def current_source_sweep_buffer (autoclear : Bool) (autoclear_mode : String)
    (auto_settle : Bool) (settling_delay start_level stop_level : ℚ) (spacing : String)
    (points : ℕ) (direction sweep_range_mode abort_on_compliance : String)
    (compliance_value : ℚ) : Except PyErr String :=
  match source_general_configuration autoclear autoclear_mode auto_settle settling_delay with
  | .error e => .error e
  | .ok buf0 =>
    let buf1 := buf0 ++ ":SOUR:FUNC CURR;:SOUR:CURR:mode SWE;:SOUR:CURR:STAR " ++
      pyStrQ start_level ++ ";:SOUR:CURR:STOP " ++ pyStrQ stop_level ++ ";"
    match sweep_configuration spacing points direction sweep_range_mode
        abort_on_compliance with
    | .error e => .error e
    | .ok buf2 => .ok (buf1 ++ buf2 ++ ":SENS:VOLT:PROT " ++ pyStrQ compliance_value ++ ";")

/-- The commands `Keithley2400.current_source_sweep_configuration` sends:
nothing when the identity check fails or buffer construction dies with a
lookup error; otherwise the assembled buffer followed by the
completion-barrier query `*OPC?` and the error-status query `:SYST:ERR?`
(modelled as the command strings they send). -/
def current_source_sweep_sent (identity : String) (autoclear : Bool)
    (autoclear_mode : String) (auto_settle : Bool)
    (settling_delay start_level stop_level : ℚ) (spacing : String) (points : ℕ)
    (direction sweep_range_mode abort_on_compliance : String)
    (compliance_value : ℚ) : List String :=
  if pyIn "KEITHLEY" identity && pyIn "2400" identity then
    match current_source_sweep_buffer autoclear autoclear_mode auto_settle settling_delay
        start_level stop_level spacing points direction sweep_range_mode
        abort_on_compliance compliance_value with
    | .error _ => []
    | .ok buf => [buf, "*OPC?", ":SYST:ERR?"]
  else []

end Keithley2400

/-! ## Theorems settling the claims -/

/-- Helper: `pyAbs` agrees with the mathematical absolute value. -/
theorem pyAbs_eq_abs (q : ℚ) : pyAbs q = |q| := by
  unfold pyAbs
  rcases lt_or_ge q 0 with h | h
  · rw [if_pos h, abs_of_neg h]
  · rw [if_neg (not_lt.mpr h), abs_of_nonneg h]

/-- Helper: `pyDec m k` is the rational `m / 10 ^ k`. -/
theorem pyDec_eq_div (m : ℤ) (k : ℕ) : pyDec m k = (m : ℚ) / 10 ^ k := by
  unfold pyDec
  rw [Rat.divInt_eq_div]
  push_cast
  ring

/-- Helper: a decoder run that would look up a key absent from its message
table cannot finish cleanly — it dies at that key, or at an earlier
failing field. -/
theorem decodeRun_missing (f : String → Except DecodeErr PyKey)
    (msgs : List (PyKey × String)) (k : PyKey) (hnone : lookupKey k msgs = none) :
    ∀ (parts : List String) (acc : String),
      k ∈ runKeys f parts → (decodeRun f msgs parts acc).snd ≠ none := by
  intro parts
  induction parts with
  | nil => intro acc hk; simp [runKeys] at hk
  | cons p rest ih =>
    intro acc hk
    rcases hfp : f p with e | k0
    · simp [decodeRun, hfp]
    · rcases hlk : lookupKey k0 msgs with _ | m
      · simp [decodeRun, hfp, hlk]
      · have hrun : decodeRun f msgs (p :: rest) acc = decodeRun f msgs rest (acc ++ m) := by
          simp [decodeRun, hfp, hlk]
        rw [hrun]
        apply ih
        have hkeys : runKeys f (p :: rest) = k0 :: runKeys f rest := by
          simp [runKeys, hfp, Except.toOption]
        rw [hkeys] at hk
        rcases List.mem_cons.mp hk with rfl | hk2
        · rw [hlk] at hnone; exact Option.noConfusion hnone
        · exact hk2

/-- C1 counterexample: decoding the 14-character ITC status string
`X00A1C1S05H2L0` does not yield the claimed six-phrase concatenation — the
decoder dies before producing a complete message. -/
theorem itc_status_example_decode_counterexample :
    (OxfordITC.status_decoder "X00A1C1S05H2L0").snd ≠ none ∧
    OxfordITC.status_decoder "X00A1C1S05H2L0" ≠
      ("Temperature controller NORMAL operative mode.\n" ++
       "Heater in AUTO mode. Gas flow in MANUAL mode.\n" ++
       "Temperature controller in REMOTE and LOCKED state.\n" ++
       "Holding the step number 3 set temperature.\n" ++
       "Temperature is controlled by CHANNEL 2 sensor.\n" ++
       "Auto (learned) PIDs are DISABLED.", none) := by
  constructor <;> decide

/-- C1 (amended): the `2/2/2/3/2/rest` field schedule of
`OxfordITC._status_decoder_` fits 13-character statuses `XnAnCnSnnHnLn`,
so it misframes the 14-character string `X00A1C1S05H2L0`: only the first
field (`X0`) decodes, to `Temperature controller NORMAL operative mode.`,
and the run then dies with an uncaught lookup failure on the misframed
field-value pair `(0, A)`, producing no decoded message. -/
theorem itc_status_example_decode_keyerror :
    OxfordITC.status_decoder "X00A1C1S05H2L0" =
      ("Temperature controller NORMAL operative mode.\n",
       some (DecodeErr.keyError [PyScalar.s "0", PyScalar.s "A"])) := by
  decide

/-- C2: on the valid 13-character ITC status `X0A1C1S05H2L0` (sweep step
05, a state the message table itself provides a phrase for under the int
key `5`), the decoder dies with an uncaught `KeyError` on the string key
`(S, 05)` instead of producing a message — the int-keyed sweep-step
entries built by `_messages_dictionary_` are unreachable from the decoder,
which looks up the two-character slice as a string. -/
theorem itc_decoder_valid_sweep_status_keyerror_bug :
    OxfordITC.status_decoder "X0A1C1S05H2L0" =
      ("Temperature controller NORMAL operative mode.\n" ++
       "Heater in AUTO mode. Gas flow in MANUAL mode.\n" ++
       "Temperature controller in REMOTE and LOCKED state.\n",
       some (DecodeErr.keyError [PyScalar.s "S", PyScalar.s "05"])) ∧
    lookupKey [PyScalar.s "S", PyScalar.i 5] OxfordITC.messages_dictionary =
      some "Sweeping to step number 3 set temperature.\n" := by
  constructor <;> decide

/-- C7: whenever a status string makes either Oxford decoder (ITC or IPS)
derive a field-value key that is absent from its message table, the
decoder run does not finish cleanly: it stops with an uncaught failure and
no complete decoded message is produced. -/
theorem status_decoder_missing_combo_fails_loudly :
    (∀ s k, k ∈ runKeys OxfordITC.fieldKey (OxfordITC.status_split s) →
        lookupKey k OxfordITC.messages_dictionary = none →
        (OxfordITC.status_decoder s).snd ≠ none) ∧
    (∀ s k, k ∈ runKeys OxfordIPS.fieldKey (OxfordIPS.status_split s) →
        lookupKey k OxfordIPS.messages_dictionary = none →
        (OxfordIPS.status_decoder s).snd ≠ none) :=
  ⟨fun _ k hk hnone => decodeRun_missing _ _ k hnone _ _ hk,
   fun _ k hk hnone => decodeRun_missing _ _ k hnone _ _ hk⟩

/-- C7 witness: concrete missing combinations — ITC status `X9A1C1S00H2L0`
(no phrase for the pair `(X, 9)`) and IPS status `X30A1C1H1M10P13` (no
phrase for the triple `(X, 3, 0)`) — both make their decoder fail. -/
theorem status_decoder_missing_combo_fails_loudly_witness :
    ([PyScalar.s "X", PyScalar.s "9"] ∈
        runKeys OxfordITC.fieldKey (OxfordITC.status_split "X9A1C1S00H2L0")) ∧
    lookupKey [PyScalar.s "X", PyScalar.s "9"] OxfordITC.messages_dictionary = none ∧
    (OxfordITC.status_decoder "X9A1C1S00H2L0").snd ≠ none ∧
    ([PyScalar.s "X", PyScalar.s "3", PyScalar.s "0"] ∈
        runKeys OxfordIPS.fieldKey (OxfordIPS.status_split "X30A1C1H1M10P13")) ∧
    lookupKey [PyScalar.s "X", PyScalar.s "3", PyScalar.s "0"]
      OxfordIPS.messages_dictionary = none ∧
    (OxfordIPS.status_decoder "X30A1C1H1M10P13").snd ≠ none :=
  ⟨by decide, by decide,
   status_decoder_missing_combo_fails_loudly.1 "X9A1C1S00H2L0"
     [PyScalar.s "X", PyScalar.s "9"] (by decide) (by decide),
   by decide, by decide,
   status_decoder_missing_combo_fails_loudly.2 "X30A1C1H1M10P13"
     [PyScalar.s "X", PyScalar.s "3", PyScalar.s "0"] (by decide) (by decide)⟩

/-- C3: set-then-verify on the IPS profile.  For an in-range request whose
re-read reply decodes to the requested value, the operation raises nothing
and the cached reading equals the requested value; when the decoded
re-read value differs, the operation raises `PSNotResponding` (the
exact-equality policy of the source) and the cached reading is the echoed
value, not the requested one.  Both for `set_target_current` (re-read
`R5`) and `set_target_field` (re-read `R8`). -/
theorem ips_set_then_verify_echo_and_mismatch (st : IPSState) (instr : Instr)
    (hid : pyIn "IPS" st.identity = true) :
    (∀ v r : ℚ, |v| ≤ 9846 / 100 →
        parsedReply (instr (st.buffer_radix ++ "R5")) = some r →
        ((r = v → (OxfordIPS.set_target_current st instr v).raisedErrors = [] ∧
            (OxfordIPS.set_target_current st instr v).state.current_set_point = some v) ∧
         (r ≠ v →
            (OxfordIPS.set_target_current st instr v).raisedErrors = [.PSNotResponding] ∧
            (OxfordIPS.set_target_current st instr v).state.current_set_point = some r))) ∧
    (∀ v r : ℚ, |v| ≤ 7 →
        parsedReply (instr (st.buffer_radix ++ "R8")) = some r →
        ((r = v → (OxfordIPS.set_target_field st instr v).raisedErrors = [] ∧
            (OxfordIPS.set_target_field st instr v).state.field_set_point = some v) ∧
         (r ≠ v →
            (OxfordIPS.set_target_field st instr v).raisedErrors = [.PSNotResponding] ∧
            (OxfordIPS.set_target_field st instr v).state.field_set_point = some r))) := by
  have hb : ∀ v : ℚ, |v| ≤ 9846 / 100 → pyAbs v ≤ pyDec 9846 2 := by
    intro v hv
    rw [pyAbs_eq_abs, pyDec_eq_div]
    calc |v| ≤ 9846 / 100 := hv
      _ = (9846 : ℚ) / 10 ^ 2 := by norm_num
  have hb7 : ∀ v : ℚ, |v| ≤ 7 → pyAbs v ≤ pyDec 7 0 := by
    intro v hv
    rw [pyAbs_eq_abs, pyDec_eq_div]
    calc |v| ≤ 7 := hv
      _ = (7 : ℚ) / 10 ^ 0 := by norm_num
  unfold parsedReply
  constructor
  · intro v r hv hrep
    unfold OxfordIPS.set_target_current OxfordIPS.get_current_set_point_reading
      OxfordIPS.get_reading
    by_cases hq : pyIn "?" ((instr (st.buffer_radix ++ "R5")).drop 1) = true
    · rw [if_pos hq] at hrep; exact Option.noConfusion hrep
    · rw [if_neg hq] at hrep
      rw [if_pos hid, if_pos (hb v hv), if_pos hid, if_neg hq, hrep]
      simp only [IPSRes.raisedErrors]
      constructor
      · intro hrv
        subst hrv
        simp
      · intro hrv
        simp [hrv]
  · intro v r hv hrep
    unfold OxfordIPS.set_target_field OxfordIPS.get_field_set_point_reading
      OxfordIPS.get_reading
    by_cases hq : pyIn "?" ((instr (st.buffer_radix ++ "R8")).drop 1) = true
    · rw [if_pos hq] at hrep; exact Option.noConfusion hrep
    · rw [if_neg hq] at hrep
      rw [if_pos hid, if_pos (hb7 v hv), if_pos hid, if_neg hq, hrep]
      simp only [IPSRes.raisedErrors]
      constructor
      · intro hrv
        subst hrv
        simp
      · intro hrv
        simp [hrv]

/-- C3 witness: on a simulated IPS that always echoes a current set point
of 5 A and a field set point of 1 T, requesting 5 A succeeds with the
cache at 5; requesting 4 A (echo differs) raises `PSNotResponding` with
the cache at the echoed 5; requesting 1 T succeeds. -/
theorem ips_set_then_verify_echo_and_mismatch_witness :
    pyIn "IPS" "IPS120-10" = true ∧ parsedReply "R+5.000" = some 5 ∧
    ((OxfordIPS.set_target_current ⟨"IPS120-10", "", false, none, none, none, none, none⟩
        (fun c => if c = "R5" then "R+5.000" else "R+1.0000") 5).raisedErrors = [] ∧
     (OxfordIPS.set_target_current ⟨"IPS120-10", "", false, none, none, none, none, none⟩
        (fun c => if c = "R5" then "R+5.000" else "R+1.0000") 5).state.current_set_point =
       some 5) ∧
    ((OxfordIPS.set_target_current ⟨"IPS120-10", "", false, none, none, none, none, none⟩
        (fun c => if c = "R5" then "R+5.000" else "R+1.0000") 4).raisedErrors =
       [.PSNotResponding] ∧
     (OxfordIPS.set_target_current ⟨"IPS120-10", "", false, none, none, none, none, none⟩
        (fun c => if c = "R5" then "R+5.000" else "R+1.0000") 4).state.current_set_point =
       some 5) ∧
    ((OxfordIPS.set_target_field ⟨"IPS120-10", "", false, none, none, none, none, none⟩
        (fun c => if c = "R5" then "R+5.000" else "R+1.0000") 1).raisedErrors = [] ∧
     (OxfordIPS.set_target_field ⟨"IPS120-10", "", false, none, none, none, none, none⟩
        (fun c => if c = "R5" then "R+5.000" else "R+1.0000") 1).state.field_set_point =
       some 1) :=
  ⟨by decide, by decide,
   ((ips_set_then_verify_echo_and_mismatch _ _ (by decide)).1 5 5
      (by rw [abs_of_pos (by norm_num : (0 : ℚ) < 5)]; norm_num) (by decide)).1 rfl,
   ((ips_set_then_verify_echo_and_mismatch _ _ (by decide)).1 4 5
      (by rw [abs_of_pos (by norm_num : (0 : ℚ) < 4)]; norm_num) (by decide)).2
     (by norm_num),
   ((ips_set_then_verify_echo_and_mismatch _ _ (by decide)).2 1 1
      (by rw [abs_of_pos (by norm_num : (0 : ℚ) < 1)]; norm_num) (by decide)).1 rfl⟩

/-- C4: `OxfordIPS.set_target_current` validates `abs(current) <= 98.46`
before writing anything: every out-of-range request (98.47 A in
particular) sends no command and raises `PSWrongOutputCurrent`, while the
boundary value 98.46 A is accepted and the `I+98.460` command plus the
`R5` verification read are written. -/
theorem ips_set_target_current_range_validation (st : IPSState) (instr : Instr)
    (hid : pyIn "IPS" st.identity = true) (hres : st.extended_resolution = false) :
    (∀ v : ℚ, 9846 / 100 < |v| →
        (OxfordIPS.set_target_current st instr v).sent = [] ∧
        (OxfordIPS.set_target_current st instr v).raisedErrors =
          [.PSWrongOutputCurrent v]) ∧
    ((OxfordIPS.set_target_current st instr (pyDec 9847 2)).sent = [] ∧
     (OxfordIPS.set_target_current st instr (pyDec 9847 2)).raisedErrors =
       [.PSWrongOutputCurrent (pyDec 9847 2)]) ∧
    (OxfordIPS.set_target_current st instr (pyDec 9846 2)).sent =
      [st.buffer_radix ++ "I" ++ "+98.460", st.buffer_radix ++ "R5"] := by
  have hout : ∀ v : ℚ, ¬ pyAbs v ≤ pyDec 9846 2 →
      (OxfordIPS.set_target_current st instr v).sent = [] ∧
      (OxfordIPS.set_target_current st instr v).raisedErrors =
        [.PSWrongOutputCurrent v] := by
    intro v hv
    unfold OxfordIPS.set_target_current
    rw [if_pos hid, if_neg hv]
    simp [IPSRes.raisedErrors]
  refine ⟨fun v hv => hout v ?_, hout (pyDec 9847 2) (by decide), ?_⟩
  · rw [pyAbs_eq_abs, pyDec_eq_div]
    exact not_le.mpr (by
      calc (9846 : ℚ) / 10 ^ 2 = 9846 / 100 := by norm_num
        _ < |v| := hv)
  · unfold OxfordIPS.set_target_current OxfordIPS.get_current_set_point_reading
      OxfordIPS.get_reading
    rw [if_pos hid, if_pos (by decide : pyAbs (pyDec 9846 2) ≤ pyDec 9846 2), hres]
    have hfmt : formatSignedFixed 3 (pyDec 9846 2) = "+98.460" := by decide
    rw [if_neg (by simp), hfmt, if_pos hid]
    by_cases hq : pyIn "?" ((instr (st.buffer_radix ++ "R5")).drop 1) = true
    · simp only [hq, if_true]
      split <;> rfl
    · simp only [hq, if_false, Bool.false_eq_true]
      rcases hfl : pyFloat? ((instr (st.buffer_radix ++ "R5")).drop 1) with _ | q
      · simp [hfl]
      · simp only [hfl]
        by_cases hqv : q = pyDec 9846 2 <;> simp [hqv]

/-- C4 witness: on a concrete IPS profile, 99 A and 98.47 A are rejected
with nothing sent, and 98.46 A is written out. -/
theorem ips_set_target_current_range_validation_witness :
    pyIn "IPS" "IPS120-10" = true ∧ (9846 / 100 : ℚ) < |(99 : ℚ)| ∧
    ((OxfordIPS.set_target_current ⟨"IPS120-10", "", false, none, none, none, none, none⟩
        (fun _ => "R+0.000") 99).sent = [] ∧
     (OxfordIPS.set_target_current ⟨"IPS120-10", "", false, none, none, none, none, none⟩
        (fun _ => "R+0.000") 99).raisedErrors = [.PSWrongOutputCurrent 99]) ∧
    ((OxfordIPS.set_target_current ⟨"IPS120-10", "", false, none, none, none, none, none⟩
        (fun _ => "R+0.000") (pyDec 9847 2)).sent = [] ∧
     (OxfordIPS.set_target_current ⟨"IPS120-10", "", false, none, none, none, none, none⟩
        (fun _ => "R+0.000") (pyDec 9847 2)).raisedErrors =
       [.PSWrongOutputCurrent (pyDec 9847 2)]) ∧
    (OxfordIPS.set_target_current ⟨"IPS120-10", "", false, none, none, none, none, none⟩
        (fun _ => "R+0.000") (pyDec 9846 2)).sent = ["" ++ "I" ++ "+98.460", "" ++ "R5"] :=
  ⟨by decide, by rw [abs_of_pos (by norm_num : (0 : ℚ) < 99)]; norm_num,
   (ips_set_target_current_range_validation _ _ (by decide) rfl).1 99
     (by rw [abs_of_pos (by norm_num : (0 : ℚ) < 99)]; norm_num),
   (ips_set_target_current_range_validation _ _ (by decide) rfl).2.1,
   (ips_set_target_current_range_validation _ _ (by decide) rfl).2.2⟩

/-- C9: `OxfordIPS.set_current_sweep_rate` never raises.  An out-of-range
rate (|rate| > 16.88) sends no command, constructs the
`PSWrongCurrentSweepRate` object without raising it, and the call returns
normally; an in-range rate whose re-read value differs from the request
raises no `PSNotResponding` either (the source only names the class) and
the call returns normally with the cache at the re-read value. -/
theorem ips_set_current_sweep_rate_no_raise (st : IPSState) (instr : Instr)
    (hid : pyIn "IPS" st.identity = true) :
    (∀ rate : ℚ, 1688 / 100 < |rate| →
        (OxfordIPS.set_current_sweep_rate st instr rate).sent = [] ∧
        (OxfordIPS.set_current_sweep_rate st instr rate).raisedErrors = [] ∧
        (OxfordIPS.set_current_sweep_rate st instr rate).constructed =
          [.PSWrongCurrentSweepRate rate]) ∧
    (∀ rate q : ℚ, |rate| ≤ 1688 / 100 →
        parsedReply (instr (st.buffer_radix ++ "R6")) = some q → q ≠ rate →
        (OxfordIPS.set_current_sweep_rate st instr rate).raisedErrors = [] ∧
        (OxfordIPS.set_current_sweep_rate st instr rate).constructed = [] ∧
        (OxfordIPS.set_current_sweep_rate st instr rate).state.current_sweep_rate =
          some q) := by
  constructor
  · intro rate hrate
    unfold OxfordIPS.set_current_sweep_rate
    rw [if_pos hid, if_neg (show ¬ pyAbs rate ≤ pyDec 1688 2 by
      rw [pyAbs_eq_abs, pyDec_eq_div]
      exact not_le.mpr (by
        calc (1688 : ℚ) / 10 ^ 2 = 1688 / 100 := by norm_num
          _ < |rate| := hrate))]
    simp [IPSRes.raisedErrors]
  · intro rate q hrate hrep _
    unfold parsedReply at hrep
    unfold OxfordIPS.set_current_sweep_rate OxfordIPS.get_current_sweep_rate_reading
      OxfordIPS.get_reading
    have hrate2 : pyAbs rate ≤ pyDec 1688 2 := by
      rw [pyAbs_eq_abs, pyDec_eq_div]
      calc |rate| ≤ 1688 / 100 := hrate
        _ = (1688 : ℚ) / 10 ^ 2 := by norm_num
    by_cases hq : pyIn "?" ((instr (st.buffer_radix ++ "R6")).drop 1) = true
    · rw [if_pos hq] at hrep; exact Option.noConfusion hrep
    · rw [if_neg hq] at hrep
      rw [if_pos hid, if_pos hrate2, if_pos hid, if_neg hq, hrep]
      simp [IPSRes.raisedErrors]

/-- C9 witness: a 20 A/min request (out of range) sends nothing and
returns normally with only a constructed error object; a 5 A/min request
whose re-read comes back as 4 A/min returns normally with nothing raised
or constructed. -/
theorem ips_set_current_sweep_rate_no_raise_witness :
    pyIn "IPS" "IPS120-10" = true ∧ (1688 / 100 : ℚ) < |(20 : ℚ)| ∧
    ((OxfordIPS.set_current_sweep_rate ⟨"IPS120-10", "", false, none, none, none, none, none⟩
        (fun _ => "R+4.000") 20).sent = [] ∧
     (OxfordIPS.set_current_sweep_rate ⟨"IPS120-10", "", false, none, none, none, none, none⟩
        (fun _ => "R+4.000") 20).raisedErrors = [] ∧
     (OxfordIPS.set_current_sweep_rate ⟨"IPS120-10", "", false, none, none, none, none, none⟩
        (fun _ => "R+4.000") 20).constructed = [.PSWrongCurrentSweepRate 20]) ∧
    ((OxfordIPS.set_current_sweep_rate ⟨"IPS120-10", "", false, none, none, none, none, none⟩
        (fun _ => "R+4.000") 5).raisedErrors = [] ∧
     (OxfordIPS.set_current_sweep_rate ⟨"IPS120-10", "", false, none, none, none, none, none⟩
        (fun _ => "R+4.000") 5).constructed = [] ∧
     (OxfordIPS.set_current_sweep_rate ⟨"IPS120-10", "", false, none, none, none, none, none⟩
        (fun _ => "R+4.000") 5).state.current_sweep_rate = some 4) :=
  ⟨by decide, by rw [abs_of_pos (by norm_num : (0 : ℚ) < 20)]; norm_num,
   (ips_set_current_sweep_rate_no_raise _ _ (by decide)).1 20
     (by rw [abs_of_pos (by norm_num : (0 : ℚ) < 20)]; norm_num),
   (ips_set_current_sweep_rate_no_raise _ _ (by decide)).2 5 4
     (by rw [abs_of_pos (by norm_num : (0 : ℚ) < 5)]; norm_num) (by decide)
     (by norm_num)⟩

/-- C10: `get_safe_current_positive_limit_reading` sends exactly the same
command list as `get_safe_current_negative_limit_reading` (the `R21` query
with the same buffer prefix), and for the same instrument reply the two
operations store the same numeric value into
`safe_current_positive_limit` and `safe_current_negative_limit`
respectively. -/
theorem ips_safe_limit_readers_same_command (st : IPSState) (instr : Instr) :
    (OxfordIPS.get_safe_current_positive_limit_reading st instr).sent =
      (OxfordIPS.get_safe_current_negative_limit_reading st instr).sent ∧
    (∀ q : ℚ, pyIn "IPS" st.identity = true →
        parsedReply (instr (st.buffer_radix ++ "R21")) = some q →
        (OxfordIPS.get_safe_current_positive_limit_reading st
            instr).state.safe_current_positive_limit = some q ∧
        (OxfordIPS.get_safe_current_negative_limit_reading st
            instr).state.safe_current_negative_limit = some q) := by
  unfold OxfordIPS.get_safe_current_positive_limit_reading
    OxfordIPS.get_safe_current_negative_limit_reading OxfordIPS.get_reading
  constructor
  · by_cases h1 : pyIn "IPS" st.identity = true
    · simp only [h1, if_true]
      by_cases h2 : pyIn "?" ((instr (st.buffer_radix ++ "R21")).drop 1) = true
      · simp [h2]
      · rcases h3 : pyFloat? ((instr (st.buffer_radix ++ "R21")).drop 1) with _ | q <;>
          simp [h2, h3]
    · simp [h1]
  · intro q hid hrep
    unfold parsedReply at hrep
    by_cases h2 : pyIn "?" ((instr (st.buffer_radix ++ "R21")).drop 1) = true
    · rw [if_pos h2] at hrep; exact Option.noConfusion hrep
    · rw [if_neg h2] at hrep
      simp [hid, h2, hrep]

/-- C10 witness: on a simulated IPS replying `R+90.000` to every query,
both limit readers send the same commands and both caches end at 90. -/
theorem ips_safe_limit_readers_same_command_witness :
    pyIn "IPS" "IPS120-10" = true ∧ parsedReply "R+90.000" = some 90 ∧
    (OxfordIPS.get_safe_current_positive_limit_reading
        ⟨"IPS120-10", "", false, none, none, none, none, none⟩ (fun _ => "R+90.000")).sent =
      (OxfordIPS.get_safe_current_negative_limit_reading
        ⟨"IPS120-10", "", false, none, none, none, none, none⟩ (fun _ => "R+90.000")).sent ∧
    (OxfordIPS.get_safe_current_positive_limit_reading
        ⟨"IPS120-10", "", false, none, none, none, none, none⟩
        (fun _ => "R+90.000")).state.safe_current_positive_limit = some 90 ∧
    (OxfordIPS.get_safe_current_negative_limit_reading
        ⟨"IPS120-10", "", false, none, none, none, none, none⟩
        (fun _ => "R+90.000")).state.safe_current_negative_limit = some 90 :=
  ⟨by decide, by decide,
   (ips_safe_limit_readers_same_command ⟨"IPS120-10", "", false, none, none, none, none,
      none⟩ (fun _ => "R+90.000")).1,
   ((ips_safe_limit_readers_same_command ⟨"IPS120-10", "", false, none, none, none, none,
      none⟩ (fun _ => "R+90.000")).2 90 (by decide) (by decide)).1,
   ((ips_safe_limit_readers_same_command ⟨"IPS120-10", "", false, none, none, none, none,
      none⟩ (fun _ => "R+90.000")).2 90 (by decide) (by decide)).2⟩

/-- C5: the buffer assembled by
`current_source_fixed_configuration(auto_range=False, manual_range=1e-2,
source_level=5e-3, compliance_value=10)` (other parameters at their
defaults; `pyDec 1 2` and `pyDec 5 3` are the Python literals `1e-2` and
`5e-3`) contains `:SOUR:FUNC CURR;`,
`:SOUR:CURR:RANG:AUTO OFF;:SOUR:CURR:RANG 0.01`, `:SOUR:CURR 0.005;` and
`:SENS:VOLT:PROT 10;` in that relative order. -/
theorem keithley2400_current_fixed_buffer_fragments_in_order :
    ∃ a b c d e : String,
      Keithley2400.current_source_fixed_buffer false "Always" true 0 false (pyDec 1 2)
          (pyDec 5 3) "Immediate" false 1 10 =
        Except.ok (a ++ ":SOUR:FUNC CURR;" ++ b ++
          ":SOUR:CURR:RANG:AUTO OFF;:SOUR:CURR:RANG 0.01" ++ c ++
          ":SOUR:CURR 0.005;" ++ d ++ ":SENS:VOLT:PROT 10;" ++ e) :=
  ⟨":SOUR:CLE:AUTO OFF;:SOUR:DEL:AUTO ON;", ":SOUR:CURR:MODE FIX;", "", "", "", by rfl⟩

/-- C6 counterexample: the mnemonic tables are not case-insensitive — the
mixed-case spelling `lInEaR` of the recognized option `linear` (which maps
to `LIN` in its lowercase, title-case and upper-case spellings) has no
entry. -/
theorem keithley_type_dictionary_case_counterexample :
    Instruments.dict_lookupE Keithley2400.spacing_types "linear" = some "LIN" ∧
    Instruments.dict_lookupE Keithley2400.spacing_types "Linear" = some "LIN" ∧
    Instruments.dict_lookupE Keithley2400.spacing_types "LINEAR" = some "LIN" ∧
    Instruments.dict_lookupE Keithley2400.spacing_types "lInEaR" = none := by
  refine ⟨?_, ?_, ?_, ?_⟩ <;> decide

/-- C6 (amended): for each recognized option, exactly the as-given
(lowercase), `title()`-case and `upper()`-case spellings map to the same
SCPI mnemonic; any other spelling of a sweep option makes the lookup fail,
the sweep configuration die with a lookup error, and the configuration
operation send nothing to the instrument. -/
theorem keithley_enum_three_spellings_and_fail_before_send :
    (Instruments.dict_lookupE Keithley2400.spacing_types "logarithmic" = some "LOG" ∧
     Instruments.dict_lookupE Keithley2400.spacing_types "Logarithmic" = some "LOG" ∧
     Instruments.dict_lookupE Keithley2400.spacing_types "LOGARITHMIC" = some "LOG") ∧
    (Instruments.dict_lookupE Keithley2400.directions "up" = some "UP" ∧
     Instruments.dict_lookupE Keithley2400.directions "Up" = some "UP" ∧
     Instruments.dict_lookupE Keithley2400.directions "UP" = some "UP") ∧
    (Instruments.dict_lookupE Keithley2400.range_modes "best" = some "BEST" ∧
     Instruments.dict_lookupE Keithley2400.range_modes "Best" = some "BEST" ∧
     Instruments.dict_lookupE Keithley2400.range_modes "BEST" = some "BEST") ∧
    (Instruments.dict_lookupE Keithley2400.abort_modes "never" = some "NEV" ∧
     Instruments.dict_lookupE Keithley2400.abort_modes "Never" = some "NEV" ∧
     Instruments.dict_lookupE Keithley2400.abort_modes "NEVER" = some "NEV") ∧
    (∀ (identity spacing direction srm aoc : String) (points : ℕ)
        (settling start stop compliance : ℚ),
      Instruments.dict_lookupE Keithley2400.spacing_types spacing = none →
      (∃ e, Keithley2400.sweep_configuration spacing points direction srm aoc =
          Except.error e) ∧
      Keithley2400.current_source_sweep_sent identity false "Always" true settling
        start stop spacing points direction srm aoc compliance = []) := by
  refine ⟨⟨by decide, by decide, by decide⟩, ⟨by decide, by decide, by decide⟩,
    ⟨by decide, by decide, by decide⟩, ⟨by decide, by decide, by decide⟩, ?_⟩
  intro identity spacing direction srm aoc points settling start stop compliance h
  have hS : Keithley2400.spacing_types = Except.ok [("linear", "LIN"), ("Linear", "LIN"),
      ("LINEAR", "LIN"), ("logarithmic", "LOG"), ("Logarithmic", "LOG"),
      ("LOGARITHMIC", "LOG")] := by rfl
  have hD : Keithley2400.directions = Except.ok [("up", "UP"), ("Up", "UP"), ("UP", "UP"),
      ("down", "DOWN"), ("Down", "DOWN"), ("DOWN", "DOWN")] := by rfl
  have hR : Keithley2400.range_modes = Except.ok [("best", "BEST"), ("Best", "BEST"),
      ("BEST", "BEST"), ("auto", "AUTO"), ("Auto", "AUTO"), ("AUTO", "AUTO"),
      ("fixed", "FIX"), ("Fixed", "FIX"), ("FIXED", "FIX")] := by rfl
  have hA : Keithley2400.abort_modes = Except.ok [("never", "NEV"), ("Never", "NEV"),
      ("NEVER", "NEV"), ("early", "EARL"), ("Early", "EARL"), ("EARLY", "EARL"),
      ("late", "LATE"), ("Late", "LATE"), ("LATE", "LATE")] := by rfl
  rw [hS] at h
  simp only [Instruments.dict_lookupE] at h
  have hsw : ∀ points2 : ℕ, Keithley2400.sweep_configuration spacing points2 direction
      srm aoc = Except.error (PyErr.KeyError spacing) := by
    intro points2
    simp only [Keithley2400.sweep_configuration, hS, hD, hR, hA]
    split <;> simp_all
  refine ⟨⟨PyErr.KeyError spacing, hsw points⟩, ?_⟩
  unfold Keithley2400.current_source_sweep_sent
  by_cases hident : (pyIn "KEITHLEY" identity && pyIn "2400" identity) = true
  · rw [if_pos hident]
    unfold Keithley2400.current_source_sweep_buffer
    have hgen : Keithley2400.source_general_configuration false "Always" true settling =
        Except.ok (":SOUR:CLE:AUTO OFF;" ++ ":SOUR:DEL:AUTO ON;") := rfl
    simp only [hgen, hsw points]
  · rw [if_neg hident]

/-- C6 witness: with the unrecognized spelling `lInEaR` the sweep
configuration dies with a lookup failure and the sweep-configuration
operation of a Keithley 2400 sends nothing. -/
theorem keithley_enum_three_spellings_and_fail_before_send_witness :
    Instruments.dict_lookupE Keithley2400.spacing_types "lInEaR" = none ∧
    ((∃ e, Keithley2400.sweep_configuration "lInEaR" 2500 "Up" "Best" "Never" =
        Except.error e) ∧
     Keithley2400.current_source_sweep_sent "KEITHLEY INSTRUMENTS INC.,MODEL 2400"
       false "Always" true 0 (-1) 1 "lInEaR" 2500 "Up" "Best" "Never" (pyDec 1 4) = []) :=
  ⟨by decide,
   keithley_enum_three_spellings_and_fail_before_send.2.2.2.2
     "KEITHLEY INSTRUMENTS INC.,MODEL 2400" "lInEaR" "Up" "Best" "Never" 2500 0 (-1) 1
     (pyDec 1 4) (by decide)⟩

/-- C8 counterexample: with current enumeration `[GPIB0::1::INSTR]`, a
refresh that observes `[GPIB0::2::INSTR]`, and the requested address
`GPIB0::3::INSTR` still unreachable after that single refresh,
`open_instrument` propagates no failure to the caller — it returns Python
`None` — contradicting the claim that a typed resource-unavailable failure
is raised to the caller. -/
theorem manager_open_instrument_swallow_counterexample :
    (Manager.open_instrument ⟨["GPIB0::1::INSTR"]⟩ ["GPIB0::2::INSTR"]
        "GPIB0::3::INSTR").list_resources_calls = 1 ∧
    (Manager.open_instrument ⟨["GPIB0::1::INSTR"]⟩ ["GPIB0::2::INSTR"]
        "GPIB0::3::INSTR").handle = none ∧
    (Manager.open_instrument ⟨["GPIB0::1::INSTR"]⟩ ["GPIB0::2::INSTR"]
        "GPIB0::3::INSTR").thrown = none := by
  refine ⟨?_, ?_, ?_⟩ <;> decide

/-- C8 (amended): for an address not in the current enumeration,
`open_instrument` performs exactly one refresh; if the address appears in
the refreshed enumeration it is opened; otherwise the
`InstrumentNotAvailableError` is raised internally but caught and merely
logged by the operation itself, which returns Python `None` to the caller
with no failure propagated — except when the enumeration was unchanged and
empty, in which case a `VoidManagerError` (not a resource-unavailable
failure) propagates. -/
theorem manager_open_instrument_one_refresh (st : Manager.State) (lsr : List String)
    (adress : String) (h : adress ∉ st.resources) :
    (Manager.open_instrument st lsr adress).list_resources_calls = 1 ∧
    (adress ∈ lsr → (Manager.open_instrument st lsr adress).handle = some adress ∧
       (Manager.open_instrument st lsr adress).thrown = none) ∧
    (adress ∉ lsr →
       (Manager.open_instrument st lsr adress).handle = none ∧
       ((st.resources = [] ∧ lsr = []) →
          (Manager.open_instrument st lsr adress).thrown = some .VoidManagerError) ∧
       (¬(st.resources = [] ∧ lsr = []) →
          (Manager.open_instrument st lsr adress).thrown = none ∧
          PyErr.InstrumentNotAvailableError ∈
            (Manager.open_instrument st lsr adress).caught)) := by
  by_cases h1 : lsr = st.resources
  · by_cases h2 : lsr = []
    · have hopen : Manager.open_instrument st lsr adress =
          ⟨⟨lsr⟩, 1, none, error_handler [] .VoidManagerError, some .VoidManagerError⟩ := by
        unfold Manager.open_instrument Manager.refresh_resources
        rw [if_neg h, if_pos h1, if_pos h2]
      rw [hopen]
      exact ⟨rfl, fun hmem => absurd (h1 ▸ hmem) h,
        fun _ => ⟨rfl, fun _ => rfl, fun hne => absurd ⟨h1.symm.trans h2, h2⟩ hne⟩⟩
    · have hopen : Manager.open_instrument st lsr adress =
          ⟨⟨lsr⟩, 1, none,
           error_handler (error_handler [] .InstrumentNotAvailableError)
             .InstrumentNotAvailableError, none⟩ := by
        unfold Manager.open_instrument Manager.refresh_resources
        rw [if_neg h, if_pos h1, if_neg h2]
      rw [hopen]
      exact ⟨rfl, fun hmem => absurd (h1 ▸ hmem) h,
        fun _ => ⟨rfl, fun hc => absurd hc.2 h2,
          fun _ => ⟨rfl, by simp [error_handler]⟩⟩⟩
  · by_cases h3 : adress ∈ lsr
    · have hopen : Manager.open_instrument st lsr adress =
          ⟨⟨lsr⟩, 1, some adress, [], none⟩ := by
        unfold Manager.open_instrument Manager.refresh_resources
        rw [if_neg h, if_neg h1]
        exact if_pos h3
      rw [hopen]
      exact ⟨rfl, fun _ => ⟨rfl, rfl⟩, fun hno => absurd h3 hno⟩
    · have hopen : Manager.open_instrument st lsr adress =
          ⟨⟨lsr⟩, 1, none, error_handler [] .InstrumentNotAvailableError, none⟩ := by
        unfold Manager.open_instrument Manager.refresh_resources
        rw [if_neg h, if_neg h1]
        exact if_neg h3
      rw [hopen]
      exact ⟨rfl, fun hmem => absurd hmem h3,
        fun _ => ⟨rfl, fun hc => absurd (hc.2.trans hc.1.symm) h1,
          fun _ => ⟨rfl, by simp [error_handler]⟩⟩⟩

/-- C8 witness: with current enumeration `[A]`, refreshed enumeration
`[B]` and requested address `C`, the single-refresh behaviour of
`open_instrument` is as the amended claim states. -/
theorem manager_open_instrument_one_refresh_witness :
    "C" ∉ (Manager.State.mk ["A"]).resources ∧
    ((Manager.open_instrument ⟨["A"]⟩ ["B"] "C").list_resources_calls = 1 ∧
     ("C" ∈ ["B"] → (Manager.open_instrument ⟨["A"]⟩ ["B"] "C").handle = some "C" ∧
        (Manager.open_instrument ⟨["A"]⟩ ["B"] "C").thrown = none) ∧
     ("C" ∉ ["B"] →
        (Manager.open_instrument ⟨["A"]⟩ ["B"] "C").handle = none ∧
        (((Manager.State.mk ["A"]).resources = [] ∧ ["B"] = ([] : List String)) →
           (Manager.open_instrument ⟨["A"]⟩ ["B"] "C").thrown = some .VoidManagerError) ∧
        (¬((Manager.State.mk ["A"]).resources = [] ∧ ["B"] = ([] : List String)) →
           (Manager.open_instrument ⟨["A"]⟩ ["B"] "C").thrown = none ∧
           PyErr.InstrumentNotAvailableError ∈
             (Manager.open_instrument ⟨["A"]⟩ ["B"] "C").caught))) :=
  ⟨by decide, manager_open_instrument_one_refresh ⟨["A"]⟩ ["B"] "C" (by decide)⟩

end MRLab
